import Mathlib

/-!
Shallow embedding of `pesos/scheduler.py` (the framework-side Mesos scheduler
driver): the `SchedulerProcess` actor and the `PesosSchedulerDriver` facade.

Modelling conventions:
  * Protobuf identifier messages (`OfferID`, `SlaveID`, `TaskID`, `FrameworkID`,
    `ExecutorID`) are structures with a single `value : String` field, matching
    the `.value` accesses in the source.
  * `FrameworkInfo` is reduced to its `id.value` string (the only field the
    core reads or writes; the rest is forwarded opaquely inside wire messages,
    which we record by the id alone).
  * Python `dict`s are association lists with unique keys maintained by the
    `pySet`/`pyPopD` operations; `dict.pop(key)` without a default raises
    `KeyError` when the key is absent, which we model by `pyPopD` returning
    `none`.
  * Python exceptions (`NameError`, `KeyError`, `AssertionError`) surface in
    the `err` field of a handler result `HRes`; the `state` field is the actor
    state at the point the exception was raised (mutations made before the
    raise persist, as in Python), and `outputs` are the side effects (sends,
    user callbacks, log lines, delayed dispatches) emitted before the raise.
  * `threading.Event` flags are `Bool` fields.
  * The keys of `saved_slaves` are modelled by `PyKey`: `launch_tasks` stores
    entries under the *string* `task.slave_id.value`, while
    `send_framework_message` subscripts with the `SlaveID` protobuf object
    itself (`self.saved_slaves[slave_id]`, no `.value`).  Protobuf python
    messages are unhashable (`Message.__hash__` raises
    `TypeError('unhashable object')`, and generated classes do not override
    it), and a dict subscript hashes its key before comparing anything, so
    that lookup raises an uncaught `TypeError` rather than reaching the
    `except KeyError` clause; `send_framework_message` is embedded
    accordingly.  The `PyKey.slaveIdObj` shape records that no stored cache
    key is ever that object shape.
-/

namespace Pesos

/-- A compactor process address (`compactor.pid.PID`), kept as its canonical
string form; compared by value as in the source. -/
structure PID where
  addr : String
deriving DecidableEq, Repr

/-- `PID.from_string` parses the canonical string form of an address. -/
def PID.from_string (s : String) : PID := ⟨s⟩

structure OfferID where
  value : String
deriving DecidableEq, Repr

structure SlaveID where
  value : String
deriving DecidableEq, Repr

structure TaskID where
  value : String
deriving DecidableEq, Repr

structure FrameworkID where
  value : String
deriving DecidableEq, Repr

structure ExecutorID where
  value : String
deriving DecidableEq, Repr

/-- `CommandInfo`: only its presence matters to the core. -/
structure CommandInfo where
  value : String
deriving DecidableEq, Repr

/-- `ExecutorInfo`: the core reads and writes only the optional
`framework_id` sub-message (`HasField` = `isSome`). -/
structure ExecutorInfo where
  framework_id : Option FrameworkID
deriving DecidableEq, Repr

/-- `TaskInfo`: the fields the scheduler core touches.  `executor` and
`command` are optional sub-messages; `HasField` = `isSome`. -/
structure TaskInfo where
  task_id : TaskID
  slave_id : SlaveID
  executor : Option ExecutorInfo
  command : Option CommandInfo
deriving DecidableEq, Repr

/-- An entry of `ResourceOffersMessage.offers`: the fields read by the
handler (`offer.id.value`, `offer.slave_id.value`). -/
structure Offer where
  id : OfferID
  slave_id : SlaveID
deriving DecidableEq, Repr

inductive TaskState
  | TASK_RUNNING
  | TASK_FINISHED
  | TASK_LOST
deriving DecidableEq, Repr

structure TaskStatus where
  task_id : TaskID
  state : TaskState
  message : String
deriving DecidableEq, Repr

/-- The `update` field of a `StatusUpdateMessage`: the fields read by
`status_update` and `status_update_acknowledgement`. -/
structure StatusUpdate where
  framework_id : FrameworkID
  status : TaskStatus
  slave_id : SlaveID
  uuid : String
deriving DecidableEq, Repr

/-- `mesos_pb2.Filters()`; opaque to the core (constructed as a default and
forwarded verbatim). -/
structure Filters where
deriving DecidableEq, Repr

/-- A Python dict key as used for `saved_slaves`.  Every key actually stored
(by `launch_tasks`) or popped (by `lost_slave`) is the plain string
`…slave_id.value`; the `slaveIdObj` shape stands for a `SlaveID` protobuf
object, which never occurs as a stored key (and cannot: it is unhashable —
`send_framework_message`'s subscript with it raises `TypeError` before any
key comparison). -/
inductive PyKey
  | str (s : String)
  | slaveIdObj (s : SlaveID)
deriving DecidableEq, Repr

/-- A Python exception escaping a handler. -/
inductive PyError
  | nameError (name : String)
  | keyError
  | typeError (message : String)
  | assertionError
deriving DecidableEq, Repr

/-- `d[k]` as a total lookup (`None` when absent). -/
def pyGet {α β : Type} [DecidableEq α] : List (α × β) → α → Option β
  | [], _ => none
  | (k', v') :: rest, k => if k' = k then some v' else pyGet rest k

/-- `d[k] = v`: overwrite in place or append. -/
def pySet {α β : Type} [DecidableEq α] : List (α × β) → α → β → List (α × β)
  | [], k, v => [(k, v)]
  | (k', v') :: rest, k, v =>
    if k' = k then (k, v) :: rest else (k', v') :: pySet rest k v

/-- `d.pop(k)` without a default: `none` models the `KeyError`, otherwise the
popped value and the remaining dict. -/
def pyPopD {α β : Type} [DecidableEq α] : List (α × β) → α → Option (β × List (α × β))
  | [], _ => none
  | (k', v') :: rest, k =>
    if k' = k then some (v', rest)
    else
      match pyPopD rest k with
      | none => none
      | some (v, rest') => some (v, (k', v') :: rest')

/-- Inbound protobuf messages dispatched to the installed handlers
(`@ProtobufProcess.install`).  `master_info` is opaque and forwarded to the
user callbacks, so it is kept as a string. -/
inductive InMsg
  | frameworkRegistered (framework_id : FrameworkID) (master_info : String)
  | frameworkReregistered (framework_id : FrameworkID) (master_info : String)
  | resourceOffers (offers : List Offer) (pids : List String)
  | rescindResourceOffer (offer_id : OfferID)
  | statusUpdateMsg (update : StatusUpdate)
  | lostSlave (slave_id : SlaveID)
  | executorToFramework (executor_id : ExecutorID) (slave_id : SlaveID) (data : String)
  | frameworkError (message : String)
deriving DecidableEq, Repr

/-- Commands dispatched into the scheduler process (driver `dispatch` calls,
delayed self-dispatches, and the detector continuation).  `detected`'s
argument models the outcome of the master future: `none` when
`master_future.result()` raised, otherwise the (possibly null) master
address. -/
inductive Command
  | stop (failover : Bool)
  | abort
  | kill_task (task_id : TaskID)
  | request_resources (requests : List String)
  | launch_tasks (offer_ids : List OfferID) (tasks : List TaskInfo) (filters : Option Filters)
  | revive_offers
  | send_framework_message (executor_id : ExecutorID) (slave_id : SlaveID) (data : String)
  | reconcile_tasks (statuses : List TaskStatus)
  | _do_registration (backoff : Nat)
  | detect
  | detected (result : Option (Option PID))
deriving DecidableEq, Repr

/-- Outbound wire messages (`self.send`); each constructor carries the fields
the source sets.  `RegisterFrameworkMessage`/`ReregisterFrameworkMessage`
carry the whole `FrameworkInfo`, which we record by its id value. -/
inductive WireMessage
  | registerFramework (framework_id : String)
  | reregisterFramework (framework_id : String) (failover : Bool)
  | unregisterFramework (framework_id : String)
  | launchTasksMessage (framework_id : String) (tasks : List TaskInfo)
      (filters : Filters) (offer_ids : List String)
  | killTaskMessage (framework_id : String) (task_id : TaskID)
  | resourceRequestMessage (framework_id : String) (requests : List String)
  | reviveOffersMessage (framework_id : String)
  | reconcileTasksMessage (framework_id : String) (statuses : List TaskStatus)
  | frameworkToExecutorMessage (framework_id : String) (executor_id : ExecutorID)
      (slave_id : SlaveID) (data : String)
  | statusUpdateAckMessage (framework_id : String) (slave_id : SlaveID)
      (task_id : TaskID) (uuid : String)
deriving DecidableEq, Repr

/-- Invocations of the user scheduler object (`camel_call(self.scheduler, ...)`,
each also passing `self.driver`). -/
inductive Callback
  | registered (framework_id : FrameworkID) (master_info : String)
  | reregistered (master_info : String)
  | disconnected
  | resource_offers (offers : List Offer)
  | offer_rescinded (offer_id : OfferID)
  | status_update (status : TaskStatus)
  | framework_message (executor_id : ExecutorID) (slave_id : SlaveID) (data : String)
  | slave_lost (slave_id : SlaveID)
  | error (message : String)
deriving DecidableEq, Repr

/-- Observable side effects of a handler, in emission order.
`sendMsg` carries the value of the Python target expression, which can be
`self.master` and hence `None`. -/
inductive Output
  | sendMsg (target : Option PID) (m : WireMessage)
  | callback (c : Callback)
  | logInfo (s : String)
  | logWarning (s : String)
  | delayed (seconds : Nat) (c : Command)
  | dispatchSelf (c : Command)
  | linkTo (p : PID)
  | detectorCall (previous : Option PID)
deriving DecidableEq, Repr

def Output.isCallback : Output → Bool
  | .callback _ => true
  | _ => false

def Output.isSend : Output → Bool
  | .sendMsg _ _ => true
  | _ => false

/-- The mutable state of a `SchedulerProcess`:
`connected`/`aborted`/`failover` events, the appointed `master`, the
framework id value (`framework.id.value`; empty string means never
registered), the offer table `saved_offers` and the slave address cache
`saved_slaves`. -/
structure ProcState where
  pid : PID
  connected : Bool
  aborted : Bool
  failover : Bool
  master : Option PID
  framework_id : String
  saved_offers : List (String × List (String × PID))
  saved_slaves : List (PyKey × PID)
deriving DecidableEq, Repr

/-- Result of running one handler: the state at termination, the side effects
emitted before termination, and the exception if one escaped. -/
structure HRes where
  state : ProcState
  outputs : List Output
  err : Option PyError
deriving DecidableEq, Repr

namespace SchedulerProcess

def MASTER_DETECTION_RETRY_SECONDS : Nat := 10

def MASTER_INITIAL_BACKOFF_SECONDS : Nat := 2

def MASTER_MAX_BACKOFF_SECONDS : Nat := 60

/-- The `ignore_if_aborted` decorator: when the `aborted` event is set, log
and drop the invocation before the wrapped handler runs. -/
def ignore_if_aborted (method : ProcState → HRes) (s : ProcState) : HRes :=
  if s.aborted then
    ⟨s, [Output.logInfo "Ignoring message because the scheduler driver is aborted."], none⟩
  else method s

/-- The `ignore_if_disconnected` decorator: when the `connected` event is
clear, log and drop the invocation before the wrapped handler runs. -/
def ignore_if_disconnected (method : ProcState → HRes) (s : ProcState) : HRes :=
  if !s.connected then
    ⟨s, [Output.logInfo "Ignoring message because the scheduler driver is disconnected."], none⟩
  else method s

/-- `valid_origin`: the sender must be the current master (`self.master !=
from_pid` drops, so a `None` master rejects every sender). -/
def valid_origin (s : ProcState) (from_pid : PID) : Bool :=
  s.master = some from_pid

def originWarning : Output :=
  Output.logWarning "Ignoring message from non-leading master"

/-- Handler for `FrameworkRegisteredMessage` (inside its aborted guard). -/
def registered (from_pid : PID) (framework_id : FrameworkID) (master_info : String)
    (s : ProcState) : HRes :=
  if s.connected then
    ⟨s, [Output.logInfo "Ignoring registered message as we are already connected."], none⟩
  else if !valid_origin s from_pid then ⟨s, [originWarning], none⟩
  else
    ⟨{ s with framework_id := framework_id.value, connected := true, failover := false },
     [Output.callback (Callback.registered framework_id master_info)], none⟩

/-- Handler for `FrameworkReregisteredMessage` (inside its aborted guard).
`assert self.framework.id == message.framework_id` raises when the ids
differ. -/
def reregistered (from_pid : PID) (framework_id : FrameworkID) (master_info : String)
    (s : ProcState) : HRes :=
  if s.connected then
    ⟨s, [Output.logInfo "Ignoring registered message as we are already connected."], none⟩
  else if !valid_origin s from_pid then ⟨s, [originWarning], none⟩
  else if s.framework_id ≠ framework_id.value then ⟨s, [], some PyError.assertionError⟩
  else
    ⟨{ s with connected := true, failover := false },
     [Output.callback (Callback.reregistered master_info)], none⟩

/-- One iteration of the `resource_offers` zip loop:
`self.saved_offers[offer_id][slave_id] = PID.from_string(pid)` on a
`defaultdict(dict)` (the inner dict is created empty when absent). -/
def record_offer (t : List (String × List (String × PID))) (op : Offer × String) :
    List (String × List (String × PID)) :=
  let inner := (pyGet t op.1.id.value).getD []
  pySet t op.1.id.value (pySet inner op.1.slave_id.value (PID.from_string op.2))

/-- Handler for `ResourceOffersMessage` (inside its guards): record each
`(offer, pid)` pair produced by `zip(message.offers, message.pids)`, then
invoke the `resource_offers` callback with the full `message.offers` list. -/
def resource_offers (from_pid : PID) (offers : List Offer) (pids : List String)
    (s : ProcState) : HRes :=
  if s.master = none then ⟨s, [], some PyError.assertionError⟩
  else if !valid_origin s from_pid then ⟨s, [originWarning], none⟩
  else
    ⟨{ s with saved_offers := (offers.zip pids).foldl record_offer s.saved_offers },
     [Output.callback (Callback.resource_offers offers)], none⟩

/-- Handler for `RescindResourceOfferMessage` (inside its guards):
`saved_offers.pop(offer_id.value, None)`; a falsy popped value (absent key or
empty inner dict) logs a warning; the `offer_rescinded` callback always
runs. -/
def rescind_offer (from_pid : PID) (offer_id : OfferID) (s : ProcState) : HRes :=
  if s.master = none then ⟨s, [], some PyError.assertionError⟩
  else if !valid_origin s from_pid then ⟨s, [originWarning], none⟩
  else
    let intro := Output.logInfo "Rescinding offer"
    match pyPopD s.saved_offers offer_id.value with
    | none =>
      ⟨s, [intro, Output.logWarning "Offer not found.",
           Output.callback (Callback.offer_rescinded offer_id)], none⟩
    | some (inner, rest) =>
      let warns := if inner = [] then [Output.logWarning "Offer not found."] else []
      ⟨{ s with saved_offers := rest },
       [intro] ++ warns ++ [Output.callback (Callback.offer_rescinded offer_id)], none⟩

/-- `status_update_acknowledgement` (itself wrapped in `ignore_if_aborted`):
emit a `StatusUpdateAcknowledgementMessage` to `pid`. -/
def status_update_acknowledgement (s : ProcState) (update : StatusUpdate) (pid : PID) :
    List Output :=
  if s.aborted then
    [Output.logInfo "Ignoring message because the scheduler driver is aborted."]
  else
    [Output.sendMsg (some pid)
      (WireMessage.statusUpdateAckMessage s.framework_id update.slave_id
        update.status.task_id update.uuid)]

/-- Handler for `StatusUpdateMessage` (inside its guards): acknowledge to the
master (when one is appointed) before invoking the `status_update`
callback. -/
def status_update (from_pid : PID) (update : StatusUpdate) (s : ProcState) : HRes :=
  if !valid_origin s from_pid then ⟨s, [originWarning], none⟩
  else
    let ack := match s.master with
      | some m => status_update_acknowledgement s update m
      | none => []
    ⟨s, ack ++ [Output.callback (Callback.status_update update.status)], none⟩

/-- Handler for `LostSlaveMessage` (inside its guards):
`self.saved_slaves.pop(message.slave_id.value)` — no default, so an absent
slave raises `KeyError` before the `slave_lost` callback. -/
def lost_slave (from_pid : PID) (slave_id : SlaveID) (s : ProcState) : HRes :=
  if s.master = none then ⟨s, [], some PyError.assertionError⟩
  else if !valid_origin s from_pid then ⟨s, [originWarning], none⟩
  else
    match pyPopD s.saved_slaves (PyKey.str slave_id.value) with
    | none => ⟨s, [], some PyError.keyError⟩
    | some (_, rest) =>
      ⟨{ s with saved_slaves := rest },
       [Output.callback (Callback.slave_lost slave_id)], none⟩

/-- Handler for `ExecutorToFrameworkMessage` (aborted guard only). -/
def framework_message (executor_id : ExecutorID) (slave_id : SlaveID) (data : String)
    (s : ProcState) : HRes :=
  ⟨s, [Output.callback (Callback.framework_message executor_id slave_id data)], none⟩

/-- Handler for `FrameworkErrorMessage` (aborted guard only). -/
def error (message : String) (s : ProcState) : HRes :=
  ⟨s, [Output.callback (Callback.error message)], none⟩

/-- `stop(failover)` command (inside its aborted guard): a non-failover stop
clears `connected`, sets `failover` and unregisters from `self.master`. -/
def stop (failover : Bool) (s : ProcState) : HRes :=
  if !failover then
    ⟨{ s with connected := false, failover := true },
     [Output.sendMsg s.master (WireMessage.unregisterFramework s.framework_id)], none⟩
  else ⟨s, [], none⟩

/-- `abort` command (inside its aborted guard): clear `connected`, set
`aborted`. -/
def abort (s : ProcState) : HRes :=
  ⟨{ s with connected := false, aborted := true }, [], none⟩

/-- `kill_task` command (inside its disconnected guard). -/
def kill_task (task_id : TaskID) (s : ProcState) : HRes :=
  match s.master with
  | none => ⟨s, [], some PyError.assertionError⟩
  | some m =>
    ⟨s, [Output.sendMsg (some m) (WireMessage.killTaskMessage s.framework_id task_id)], none⟩

/-- `request_resources` command (inside its disconnected guard). -/
def request_resources (requests : List String) (s : ProcState) : HRes :=
  match s.master with
  | none => ⟨s, [], some PyError.assertionError⟩
  | some m =>
    ⟨s, [Output.sendMsg (some m)
          (WireMessage.resourceRequestMessage s.framework_id requests)], none⟩

/-- `revive_offers` command (inside its disconnected guard). -/
def revive_offers (s : ProcState) : HRes :=
  match s.master with
  | none => ⟨s, [], some PyError.assertionError⟩
  | some m =>
    ⟨s, [Output.sendMsg (some m) (WireMessage.reviveOffersMessage s.framework_id)], none⟩

/-- `reconcile_tasks` command (inside its disconnected guard). -/
def reconcile_tasks (statuses : List TaskStatus) (s : ProcState) : HRes :=
  match s.master with
  | none => ⟨s, [], some PyError.assertionError⟩
  | some m =>
    ⟨s, [Output.sendMsg (some m)
          (WireMessage.reconcileTasksMessage s.framework_id statuses)], none⟩

/-- `send_framework_message` command (inside its disconnected guard).  After
the three not-None asserts (always satisfied here by construction), the
source runs

```
try:
  pid = self.saved_slaves[slave_id]
except KeyError:
  pid = self.master
  ...
```

The lookup key is the `SlaveID` protobuf object (there is no `.value`,
whereas `launch_tasks` keys the cache by the string `task.slave_id.value`).
Protobuf python messages are unhashable — `Message.__hash__` raises
`TypeError('unhashable object')` and the generated classes do not override
it — and a dict subscript hashes the key before comparing anything, so the
subscript raises `TypeError`, which the `except KeyError` clause does not
catch.  The handler therefore always dies before constructing or sending a
`FrameworkToExecutorMessage`: neither the direct-send branch nor the
through-master fallback is reachable. -/
def send_framework_message (executor_id : ExecutorID) (slave_id : SlaveID) (data : String)
    (s : ProcState) : HRes :=
  ⟨s, [], some (PyError.typeError "unhashable object")⟩

/-- `_do_registration(backoff)`: skip when connected or no master; otherwise
send `RegisterFrameworkMessage` (never registered, empty id value) or
`ReregisterFrameworkMessage` (with the failover bit), then re-arm itself
after `backoff` seconds with next backoff
`max(backoff * 2, MASTER_MAX_BACKOFF_SECONDS)`. -/
def _do_registration (backoff : Nat) (s : ProcState) : HRes :=
  if s.connected ∨ s.master = none then
    ⟨s, [Output.logInfo "Skipping registration."], none⟩
  else
    let sendOut :=
      if s.framework_id = "" then
        [Output.logInfo "Registering framework.",
         Output.sendMsg s.master (WireMessage.registerFramework s.framework_id)]
      else
        [Output.logInfo "Reregistering framework.",
         Output.sendMsg s.master (WireMessage.reregisterFramework s.framework_id s.failover)]
    ⟨s, sendOut ++
        [Output.delayed backoff
          (Command._do_registration (max (backoff * 2) MASTER_MAX_BACKOFF_SECONDS))], none⟩

/-- `detect` command: ask the detector for a leader distinct from the current
master and attach the `detected` continuation. -/
def detect (s : ProcState) : HRes :=
  ⟨s, [Output.detectorCall s.master], none⟩

/-- `detected(master_future)` (inside its aborted guard).  A failed future
re-arms `detect` after `MASTER_DETECTION_RETRY_SECONDS`.  Otherwise: if
connected, disconnect and fire the `disconnected` callback; adopt (and link
to) the new master or clear it; run `_do_registration()` inline with the
initial backoff; finally re-dispatch `detect`. -/
def detected (result : Option (Option PID)) (s : ProcState) : HRes :=
  match result with
  | none =>
    ⟨s, [Output.logWarning "Experienced an error detecting master, retrying...",
         Output.delayed MASTER_DETECTION_RETRY_SECONDS Command.detect], none⟩
  | some master_pid =>
    let s1 := if s.connected then { s with connected := false } else s
    let outs1 := if s.connected then [Output.callback Callback.disconnected] else []
    let s2 := { s1 with master := master_pid }
    let outs2 := match master_pid with
      | some mp => [Output.logInfo "New master detected.", Output.linkTo mp]
      | none => [Output.logInfo "Master disconnected."]
    let r := _do_registration MASTER_INITIAL_BACKOFF_SECONDS s2
    ⟨r.state,
     outs1 ++ outs2 ++ r.outputs ++
       [Output.logInfo "Setting transition watch.", Output.dispatchSelf Command.detect],
     r.err⟩

/-- `_local_lost(task, reason)`.  The source body is

```
update = mesos_pb2.StatusUpdate(
    framework_id=self.framework.id,
    status=mesos.TaskStatus(..., state=mesos.TASK_LOST, timestamp=now,
                            uuid=uuid.uuid4().get_bytes()))
self.send(self.pid, update)
```

but the module binds none of the names `mesos`, `now` or `uuid` (its imports
are `mesos_pb2`, `messages_pb2 as internal`, `SchedulerDriver` from
`mesos.interface`, and the stdlib modules `collections/getpass/functools/
logging/threading/time/socket/sys`).  Evaluating the `status=` keyword
argument resolves the callable `mesos.TaskStatus` first, so every call
raises `NameError: name 'mesos' is not defined` before anything is sent. -/
def _local_lost (s : ProcState) (task : TaskInfo) (reason : String) :
    Except PyError (List Output) :=
  Except.error (PyError.nameError "mesos")

/-- The `for task in tasks: self._local_lost(task, reason)` loop of the
disconnected branch of `launch_tasks`. -/
def local_lost_all : List TaskInfo → String → ProcState → HRes
  | [], _, s => ⟨s, [], none⟩
  | task :: rest, reason, s =>
    match _local_lost s task reason with
    | .error e => ⟨s, [], some e⟩
    | .ok outs =>
      let r := local_lost_all rest reason s
      ⟨r.state, outs ++ r.outputs, r.err⟩

/-- One iteration of the launch sanity-check loop.  A task with both or
neither of `executor`/`command` triggers `_local_lost` and `continue`s (the
task itself stays in `tasks`); an executor carrying a foreign framework id
likewise; an executor without a framework id gets ours filled in (the source
mutates the input task). -/
def sanity_check_task (s : ProcState) (task : TaskInfo) : Except PyError TaskInfo :=
  if task.executor.isSome = task.command.isSome then
    match _local_lost s task "Malformed: A task must have either an executor or command" with
    | .error e => .error e
    | .ok _ => .ok task
  else
    match task.executor with
    | some ex =>
      match ex.framework_id with
      | some fid =>
        if fid.value ≠ s.framework_id then
          match _local_lost s task "Malformed: Executor has an invalid framework ID" with
          | .error e => .error e
          | .ok _ => .ok task
        else .ok task
      | none => .ok { task with executor := some { ex with framework_id := some ⟨s.framework_id⟩ } }
    | none => .ok task

def sanity_check_tasks (s : ProcState) : List TaskInfo → Except PyError (List TaskInfo)
  | [] => .ok []
  | t :: ts => do
    let t' ← sanity_check_task s t
    let ts' ← sanity_check_tasks s ts
    .ok (t' :: ts')

/-- The inner `for task in tasks` loop of the launch offer loop: when the
offer-table entry for `offer_id` contains `task.slave_id.value`, promote that
slave address into `saved_slaves` (under the string key); otherwise warn. -/
def promote_task (oid : OfferID) (acc : ProcState × List Output) (task : TaskInfo) :
    ProcState × List Output :=
  let (s, ws) := acc
  match pyGet s.saved_offers oid.value with
  | some inner =>
    match pyGet inner task.slave_id.value with
    | some p =>
      ({ s with saved_slaves := pySet s.saved_slaves (PyKey.str task.slave_id.value) p }, ws)
    | none =>
      (s, ws ++ [Output.logWarning "Attempting to launch task with the wrong slave"])
  | none =>
    (s, ws ++ [Output.logWarning "Attempting to launch task with an unknown offer"])

/-- The `for offer_id in offer_ids` loop of `launch_tasks`: run the inner
task loop, then `self.saved_offers.pop(offer_id.value)` — no default, so an
offer id absent from the table raises `KeyError` there. -/
def launch_offer_loop : List OfferID → List TaskInfo → ProcState → HRes
  | [], _, s => ⟨s, [], none⟩
  | oid :: rest, tasks, s =>
    let sw := tasks.foldl (promote_task oid) (s, [])
    match pyPopD sw.1.saved_offers oid.value with
    | none => ⟨sw.1, sw.2, some PyError.keyError⟩
    | some (_, remaining) =>
      let r := launch_offer_loop rest tasks { sw.1 with saved_offers := remaining }
      ⟨r.state, sw.2 ++ r.outputs, r.err⟩

/-- `launch_tasks(offer_ids, tasks, filters)` — the source carries no guard
decorators here.  Disconnected: `_local_lost` each task with
"Master Disconnected" and return.  Connected: default `filters`, run the
sanity-check loop (note the `continue`d tasks stay in `tasks`), assemble the
`LaunchTasksMessage` from the full (possibly mutated) `tasks` list plus all
`offer_ids`, run the offer loop, and send to `self.master`. -/
def launch_tasks (offer_ids : List OfferID) (tasks : List TaskInfo)
    (filters : Option Filters) (s : ProcState) : HRes :=
  if !s.connected then local_lost_all tasks "Master Disconnected" s
  else
    let filters' := filters.getD {}
    match sanity_check_tasks s tasks with
    | .error e => ⟨s, [], some e⟩
    | .ok tasks' =>
      let r := launch_offer_loop offer_ids tasks' s
      match r.err with
      | some _ => r
      | none =>
        ⟨r.state,
         r.outputs ++
           [Output.sendMsg r.state.master
             (WireMessage.launchTasksMessage s.framework_id tasks' filters'
               (offer_ids.map OfferID.value))], none⟩

/-- Dispatch of an inbound protobuf message through the decorator stacks
exactly as installed in the source (for the session-bound handlers the
`ignore_if_disconnected` wrapper is outermost, then `ignore_if_aborted`,
then the handler body). -/
def handle_message (s : ProcState) (from_pid : PID) (m : InMsg) : HRes :=
  match m with
  | .frameworkRegistered fid mi => ignore_if_aborted (registered from_pid fid mi) s
  | .frameworkReregistered fid mi => ignore_if_aborted (reregistered from_pid fid mi) s
  | .resourceOffers offers pids =>
    ignore_if_disconnected (ignore_if_aborted (resource_offers from_pid offers pids)) s
  | .rescindResourceOffer oid =>
    ignore_if_disconnected (ignore_if_aborted (rescind_offer from_pid oid)) s
  | .statusUpdateMsg update =>
    ignore_if_disconnected (ignore_if_aborted (status_update from_pid update)) s
  | .lostSlave sid =>
    ignore_if_disconnected (ignore_if_aborted (lost_slave from_pid sid)) s
  | .executorToFramework eid sid data =>
    ignore_if_aborted (framework_message eid sid data) s
  | .frameworkError msg => ignore_if_aborted (error msg) s

/-- Dispatch of a command into the scheduler process, with the decorator of
each method as in the source (`launch_tasks`, `_do_registration` and
`detect` are undecorated). -/
def handle_command (s : ProcState) (c : Command) : HRes :=
  match c with
  | .stop failover => ignore_if_aborted (stop failover) s
  | .abort => ignore_if_aborted abort s
  | .kill_task tid => ignore_if_disconnected (kill_task tid) s
  | .request_resources reqs => ignore_if_disconnected (request_resources reqs) s
  | .launch_tasks oids tasks filters => launch_tasks oids tasks filters s
  | .revive_offers => ignore_if_disconnected revive_offers s
  | .send_framework_message eid sid data =>
    ignore_if_disconnected (send_framework_message eid sid data) s
  | .reconcile_tasks sts => ignore_if_disconnected (reconcile_tasks sts) s
  | ._do_registration b => _do_registration b s
  | .detect => detect s
  | .detected res => ignore_if_aborted (detected res) s

end SchedulerProcess

/-- One unit of work drained from the scheduler process mailbox: an inbound
protobuf message or a dispatched command. -/
inductive Event
  | msg (from_pid : PID) (m : InMsg)
  | cmd (c : Command)
deriving DecidableEq, Repr

/-- The scheduler process's serialized execution of one mailbox item. -/
def step (s : ProcState) (e : Event) : HRes :=
  match e with
  | .msg p m => SchedulerProcess.handle_message s p m
  | .cmd c => SchedulerProcess.handle_command s c

/-- `mesos_pb2` driver lifecycle statuses. -/
inductive DriverStatus
  | DRIVER_NOT_STARTED
  | DRIVER_RUNNING
  | DRIVER_ABORTED
  | DRIVER_STOPPED
deriving DecidableEq, Repr

/-- State of a `PesosSchedulerDriver` visible through its mutex:
the lifecycle `status`, whether `scheduler_process` has been spawned,
a mirror of the process's `aborted` event (written directly by
`driver.abort` via `self.scheduler_process.aborted.set()`), the number of
`lock.notify()` calls, and the list of commands dispatched into the process
mailbox. -/
structure DriverState where
  status : DriverStatus
  has_process : Bool
  proc_aborted : Bool
  notified : Nat
  dispatched : List Command
deriving DecidableEq, Repr

namespace PesosSchedulerDriver

/-- `start()`: only from `NOT_STARTED`.  `detector_fails` models whether
`MasterDetector.from_uri(self.master_uri)` raises; on failure the source
sets `DRIVER_ABORTED` and executes a bare `return`, so the call returns
`None` (modelled by `none`) rather than a status.  On success the process is
spawned and the new `RUNNING` status is returned. -/
def start (d : DriverState) (detector_fails : Bool) : Option DriverStatus × DriverState :=
  if d.status ≠ DriverStatus.DRIVER_NOT_STARTED then (some d.status, d)
  else if detector_fails then
    (none, { d with status := DriverStatus.DRIVER_ABORTED })
  else
    (some DriverStatus.DRIVER_RUNNING,
     { d with status := DriverStatus.DRIVER_RUNNING, has_process := true })

/-- `stop(failover)`: only from `RUNNING` or `ABORTED`.  Dispatch
`stop(failover)` to the process when one exists, remember whether the status
was `ABORTED`, store `STOPPED`, notify the condvar, and return `ABORTED` for
a previously aborted driver and the (new) stored status otherwise. -/
def stop (d : DriverState) (failover : Bool) : DriverStatus × DriverState :=
  if d.status ≠ DriverStatus.DRIVER_RUNNING ∧ d.status ≠ DriverStatus.DRIVER_ABORTED then
    (d.status, d)
  else
    let dispatched :=
      if d.has_process then d.dispatched ++ [Command.stop failover] else d.dispatched
    let aborted := d.status = DriverStatus.DRIVER_ABORTED
    let d2 : DriverState :=
      { d with dispatched := dispatched, status := DriverStatus.DRIVER_STOPPED,
               notified := d.notified + 1 }
    (if aborted then DriverStatus.DRIVER_ABORTED else d2.status, d2)

/-- `abort()`: only from `RUNNING`.  Sets the process's `aborted` event
directly, dispatches `abort`, stores and returns `ABORTED`, and notifies. -/
def abort (d : DriverState) : DriverStatus × DriverState :=
  if d.status ≠ DriverStatus.DRIVER_RUNNING then (d.status, d)
  else
    (DriverStatus.DRIVER_ABORTED,
     { d with proc_aborted := true,
              dispatched := d.dispatched ++ [Command.abort],
              status := DriverStatus.DRIVER_ABORTED,
              notified := d.notified + 1 })

/-- `join()`: returns immediately for a non-`RUNNING` driver and otherwise
waits on the condvar; it mutates nothing, so its state effect is the
identity. -/
def join (d : DriverState) : DriverStatus × DriverState := (d.status, d)

/-- A dispatching command method of the driver: `if self.status is not
DRIVER_RUNNING: return self.status`, then dispatch `c` and return the
status. -/
def dispatch_command (d : DriverState) (c : Command) : DriverStatus × DriverState :=
  if d.status ≠ DriverStatus.DRIVER_RUNNING then (d.status, d)
  else (d.status, { d with dispatched := d.dispatched ++ [c] })

def requestResources (d : DriverState) (requests : List String) :
    DriverStatus × DriverState :=
  dispatch_command d (Command.request_resources requests)

def launchTasks (d : DriverState) (offer_ids : List OfferID) (tasks : List TaskInfo)
    (filters : Option Filters) : DriverStatus × DriverState :=
  dispatch_command d (Command.launch_tasks offer_ids tasks filters)

def killTask (d : DriverState) (task_id : TaskID) : DriverStatus × DriverState :=
  dispatch_command d (Command.kill_task task_id)

/-- `declineOffer(offer_id, filters)` is exactly
`self.launch_tasks([offer_id], [], filters)`. -/
def declineOffer (d : DriverState) (offer_id : OfferID) (filters : Option Filters) :
    DriverStatus × DriverState :=
  launchTasks d [offer_id] [] filters

def reviveOffers (d : DriverState) : DriverStatus × DriverState :=
  dispatch_command d Command.revive_offers

def sendFrameworkMessage (d : DriverState) (executor_id : ExecutorID) (slave_id : SlaveID)
    (data : String) : DriverStatus × DriverState :=
  dispatch_command d (Command.send_framework_message executor_id slave_id data)

def reconcileTasks (d : DriverState) (statuses : List TaskStatus) :
    DriverStatus × DriverState :=
  dispatch_command d (Command.reconcile_tasks statuses)

end PesosSchedulerDriver

/-- The mutating public surface of the driver facade, as a single event type
(the blocking `join` reads only; `run` is `start` followed by `join`). -/
inductive DriverOp
  | start (detector_fails : Bool)
  | stop (failover : Bool)
  | abort
  | join
  | requestResources (requests : List String)
  | launchTasks (offer_ids : List OfferID) (tasks : List TaskInfo) (filters : Option Filters)
  | killTask (task_id : TaskID)
  | declineOffer (offer_id : OfferID) (filters : Option Filters)
  | reviveOffers
  | sendFrameworkMessage (executor_id : ExecutorID) (slave_id : SlaveID) (data : String)
  | reconcileTasks (statuses : List TaskStatus)
deriving DecidableEq, Repr

/-- The state effect of one driver method call. -/
def driverStep (d : DriverState) (op : DriverOp) : DriverState :=
  match op with
  | .start f => (PesosSchedulerDriver.start d f).2
  | .stop f => (PesosSchedulerDriver.stop d f).2
  | .abort => (PesosSchedulerDriver.abort d).2
  | .join => (PesosSchedulerDriver.join d).2
  | .requestResources reqs => (PesosSchedulerDriver.requestResources d reqs).2
  | .launchTasks oids tasks filters => (PesosSchedulerDriver.launchTasks d oids tasks filters).2
  | .killTask tid => (PesosSchedulerDriver.killTask d tid).2
  | .declineOffer oid filters => (PesosSchedulerDriver.declineOffer d oid filters).2
  | .reviveOffers => (PesosSchedulerDriver.reviveOffers d).2
  | .sendFrameworkMessage eid sid data =>
    (PesosSchedulerDriver.sendFrameworkMessage d eid sid data).2
  | .reconcileTasks sts => (PesosSchedulerDriver.reconcileTasks d sts).2

/-! Concrete fixtures used by the claim theorems and witnesses. -/

def masterPID : PID := ⟨"master@10.0.0.1:5050"⟩

def slavePID : PID := ⟨"slave@10.0.0.2:5051"⟩

def schedulerPID : PID := ⟨"scheduler(1)@10.0.0.3:8081"⟩

/-- A well-formed task: a command, no executor. -/
def taskWithCommand : TaskInfo := ⟨⟨"t-1"⟩, ⟨"s-1"⟩, none, some ⟨"true"⟩⟩

/-- A malformed task: both an executor and a command are set. -/
def taskMalformed : TaskInfo := ⟨⟨"t-2"⟩, ⟨"s-1"⟩, some ⟨none⟩, some ⟨"true"⟩⟩

def off1 : Offer := ⟨⟨"o-1"⟩, ⟨"s-1"⟩⟩

def off2 : Offer := ⟨⟨"o-2"⟩, ⟨"s-2"⟩⟩

/-- Registered once (framework id "f-1") but currently disconnected. -/
def disconnectedState : ProcState :=
  ⟨schedulerPID, false, false, false, some masterPID, "f-1", [], []⟩

/-- Connected, offer table holding offer "o-1" on slave "s-1". -/
def connectedState : ProcState :=
  ⟨schedulerPID, true, false, false, some masterPID, "f-1",
   [("o-1", [("s-1", slavePID)])], []⟩

/-- Connected, empty offer table and slave cache. -/
def connectedEmptyState : ProcState :=
  ⟨schedulerPID, true, false, false, some masterPID, "f-1", [], []⟩

/-- Never registered (empty framework id), master appointed, not yet
connected: the state in which the registration backoff loop runs. -/
def registeringState : ProcState :=
  ⟨schedulerPID, false, false, false, some masterPID, "", [], []⟩

/-- An aborted scheduler process. -/
def abortedState : ProcState :=
  ⟨schedulerPID, false, true, false, some masterPID, "f-1",
   [("o-1", [("s-1", slavePID)])], [(PyKey.str "s-1", slavePID)]⟩

/-- Connected, slave cache holding slave "s-1" under its string key. -/
def cachedSlaveState : ProcState :=
  ⟨schedulerPID, true, false, false, some masterPID, "f-1", [],
   [(PyKey.str "s-1", slavePID)]⟩

/-- The process state after a connected launch of `taskWithCommand` against
offer "o-1" from `connectedState`: the offer is consumed and the slave
address promoted into the cache. -/
def postLaunchState : ProcState :=
  (step connectedState
    (Event.cmd (Command.launch_tasks [⟨"o-1"⟩] [taskWithCommand] none))).state

def driverFreshState : DriverState :=
  ⟨DriverStatus.DRIVER_NOT_STARTED, false, false, 0, []⟩

def driverRunningState : DriverState :=
  ⟨DriverStatus.DRIVER_RUNNING, true, false, 0, []⟩

def driverAbortedState : DriverState :=
  ⟨DriverStatus.DRIVER_ABORTED, true, true, 0, []⟩

/-! Claim theorems. -/

/-- Claim C1 (code_bug evaluation): calling `launch_tasks` with one task
while the scheduler process is disconnected does not synthesize a local
TASK_LOST update and does not reach the user's `status_update` callback —
the first `_local_lost` call raises `NameError: name 'mesos' is not
defined`, so the handler dies with no outputs and an unchanged state. -/
theorem launch_tasks_disconnected_local_lost_nameerror :
    (step disconnectedState
      (Event.cmd (Command.launch_tasks [] [taskWithCommand] none))).err =
        some (PyError.nameError "mesos") ∧
    (step disconnectedState
      (Event.cmd (Command.launch_tasks [] [taskWithCommand] none))).outputs = [] ∧
    (step disconnectedState
      (Event.cmd (Command.launch_tasks [] [taskWithCommand] none))).state =
        disconnectedState :=
  ⟨rfl, rfl, rfl⟩

/-- Claim C2 (code_bug evaluation): the registration retry schedule computed
by `_do_registration` uses `max(backoff * 2, MASTER_MAX_BACKOFF_SECONDS)`,
so from the unconnected registering state the successive inter-attempt gaps
are 2s, 60s, 120s, 240s, ...: the second gap is 60s (not a doubling to 4s)
and the third gap, 120s, already exceeds the 60s cap the claim states. -/
theorem registration_backoff_exceeds_cap :
    (step registeringState
      (Event.cmd (Command._do_registration
        SchedulerProcess.MASTER_INITIAL_BACKOFF_SECONDS))).outputs =
      [Output.logInfo "Registering framework.",
       Output.sendMsg (some masterPID) (WireMessage.registerFramework ""),
       Output.delayed 2 (Command._do_registration 60)] ∧
    (step registeringState (Event.cmd (Command._do_registration 60))).outputs =
      [Output.logInfo "Registering framework.",
       Output.sendMsg (some masterPID) (WireMessage.registerFramework ""),
       Output.delayed 60 (Command._do_registration 120)] ∧
    (step registeringState (Event.cmd (Command._do_registration 120))).outputs =
      [Output.logInfo "Registering framework.",
       Output.sendMsg (some masterPID) (WireMessage.registerFramework ""),
       Output.delayed 120 (Command._do_registration 240)] ∧
    SchedulerProcess.MASTER_MAX_BACKOFF_SECONDS < 120 :=
  ⟨rfl, rfl, rfl, by decide⟩

/-- Claim C3 (code_bug evaluation): a connected `launch_tasks` naming an
offer id absent from the offer table logs the unknown-offer warning but then
dies in `saved_offers.pop(offer_id.value)` with a `KeyError`; in particular
the assembled `LaunchTasksMessage` is never sent (the outputs contain no
send at all). -/
theorem launch_tasks_unknown_offer_keyerror :
    (step connectedEmptyState
      (Event.cmd (Command.launch_tasks [⟨"o-unknown"⟩] [taskWithCommand] none))).err =
        some PyError.keyError ∧
    (step connectedEmptyState
      (Event.cmd (Command.launch_tasks [⟨"o-unknown"⟩] [taskWithCommand] none))).outputs =
        [Output.logWarning "Attempting to launch task with an unknown offer"] :=
  ⟨rfl, rfl⟩

/-- Claim C4 (code_bug evaluation): a connected `launch_tasks` whose only
task is malformed (here: both `executor` and `command` set) raises
`NameError: name 'mesos' is not defined` inside `_local_lost` during the
sanity-check loop: no local TASK_LOST update exists, no `status_update`
callback fires, and nothing is sent (and the loop's `continue` would in any
case have left the malformed task inside `tasks`, the list the
`LaunchTasksMessage` is assembled from). -/
theorem launch_tasks_malformed_task_nameerror :
    (step connectedState
      (Event.cmd (Command.launch_tasks [⟨"o-1"⟩] [taskMalformed] none))).err =
        some (PyError.nameError "mesos") ∧
    (step connectedState
      (Event.cmd (Command.launch_tasks [⟨"o-1"⟩] [taskMalformed] none))).outputs = [] ∧
    SchedulerProcess.sanity_check_tasks connectedState [taskMalformed] =
      Except.error (PyError.nameError "mesos") :=
  ⟨rfl, rfl, rfl⟩

/-- Claim C9 (code_bug evaluation): after a connected launch has promoted
slave "s-1" into the slave cache (under its string key), a
`send_framework_message` for that same slave does not deliver the
`FrameworkToExecutorMessage` to the cached address — or anywhere.  The
lookup `self.saved_slaves[slave_id]` subscripts with the `SlaveID` protobuf
object; protobuf messages are unhashable, so the subscript raises
`TypeError`, the `except KeyError` clause does not catch it, and the handler
dies with nothing sent. -/
theorem send_framework_message_unhashable_typeerror :
    pyGet postLaunchState.saved_slaves (PyKey.str "s-1") = some slavePID ∧
    postLaunchState.connected = true ∧
    (step postLaunchState
      (Event.cmd (Command.send_framework_message ⟨"e-1"⟩ ⟨"s-1"⟩ "data"))).err =
        some (PyError.typeError "unhashable object") ∧
    (step postLaunchState
      (Event.cmd (Command.send_framework_message ⟨"e-1"⟩ ⟨"s-1"⟩ "data"))).outputs = [] :=
  ⟨rfl, rfl, rfl, rfl⟩

/-- Claim C5: `stop(failover)` called on an ABORTED driver returns ABORTED
while storing STOPPED and notifying the join condvar; called on a RUNNING
driver it returns and stores STOPPED (and notifies). -/
theorem driver_stop_aborted_and_running :
    ∀ (d : DriverState) (failover : Bool),
      (d.status = DriverStatus.DRIVER_ABORTED →
        (PesosSchedulerDriver.stop d failover).1 = DriverStatus.DRIVER_ABORTED ∧
        (PesosSchedulerDriver.stop d failover).2.status = DriverStatus.DRIVER_STOPPED ∧
        (PesosSchedulerDriver.stop d failover).2.notified = d.notified + 1) ∧
      (d.status = DriverStatus.DRIVER_RUNNING →
        (PesosSchedulerDriver.stop d failover).1 = DriverStatus.DRIVER_STOPPED ∧
        (PesosSchedulerDriver.stop d failover).2.status = DriverStatus.DRIVER_STOPPED ∧
        (PesosSchedulerDriver.stop d failover).2.notified = d.notified + 1) := by
  intro d f
  constructor <;> intro h <;> simp [PesosSchedulerDriver.stop, h]

/-- Witness for C5 at concrete driver states. -/
theorem driver_stop_aborted_and_running_witness :
    ((PesosSchedulerDriver.stop driverAbortedState false).1 =
        DriverStatus.DRIVER_ABORTED ∧
      (PesosSchedulerDriver.stop driverAbortedState false).2.status =
        DriverStatus.DRIVER_STOPPED ∧
      (PesosSchedulerDriver.stop driverAbortedState false).2.notified =
        driverAbortedState.notified + 1) ∧
    ((PesosSchedulerDriver.stop driverRunningState false).1 =
        DriverStatus.DRIVER_STOPPED ∧
      (PesosSchedulerDriver.stop driverRunningState false).2.status =
        DriverStatus.DRIVER_STOPPED ∧
      (PesosSchedulerDriver.stop driverRunningState false).2.notified =
        driverRunningState.notified + 1) :=
  ⟨(driver_stop_aborted_and_running driverAbortedState false).1 rfl,
   (driver_stop_aborted_and_running driverRunningState false).2 rfl⟩

/-- Claim C6 counterexample: from NOT_STARTED with a failing detector
construction, `start` stores ABORTED but executes a bare `return`, so it
returns `None` — not the new ABORTED status the claim asserts. -/
theorem driver_start_detector_fail_returns_none :
    (PesosSchedulerDriver.start driverFreshState true).1 = none ∧
    (PesosSchedulerDriver.start driverFreshState true).1 ≠
      some DriverStatus.DRIVER_ABORTED ∧
    (PesosSchedulerDriver.start driverFreshState true).2.status =
      DriverStatus.DRIVER_ABORTED :=
  ⟨rfl, by decide, rfl⟩

/-- Claim C6 amended: from NOT_STARTED, a failing detector construction sets
the driver status to ABORTED synchronously but `start` returns `None` (no
status); a successful construction sets RUNNING and returns RUNNING. -/
theorem driver_start_status_amended :
    ∀ d : DriverState, d.status = DriverStatus.DRIVER_NOT_STARTED →
      ((PesosSchedulerDriver.start d true).1 = none ∧
       (PesosSchedulerDriver.start d true).2.status = DriverStatus.DRIVER_ABORTED) ∧
      ((PesosSchedulerDriver.start d false).1 = some DriverStatus.DRIVER_RUNNING ∧
       (PesosSchedulerDriver.start d false).2.status = DriverStatus.DRIVER_RUNNING) := by
  intro d h
  simp [PesosSchedulerDriver.start, h]

/-- Witness for the amended C6 at a fresh driver. -/
theorem driver_start_status_amended_witness :
    ((PesosSchedulerDriver.start driverFreshState true).1 = none ∧
     (PesosSchedulerDriver.start driverFreshState true).2.status =
       DriverStatus.DRIVER_ABORTED) ∧
    ((PesosSchedulerDriver.start driverFreshState false).1 =
       some DriverStatus.DRIVER_RUNNING ∧
     (PesosSchedulerDriver.start driverFreshState false).2.status =
       DriverStatus.DRIVER_RUNNING) :=
  driver_start_status_amended driverFreshState rfl

/-- A key that is absent is looked up as `none`. -/
theorem pyGet_eq_none_of_not_mem {α β : Type} [DecidableEq α]
    (d : List (α × β)) (k : α) (h : k ∉ d.map Prod.fst) : pyGet d k = none := by
  induction d with
  | nil => rfl
  | cons p rest ih =>
    simp only [List.map_cons, List.mem_cons, not_or] at h
    simp only [pyGet]
    rw [if_neg (fun he => h.1 he.symm)]
    exact ih h.2

/-- `pop` without a default raises exactly when the key is absent. -/
theorem pyPopD_eq_none_iff {α β : Type} [DecidableEq α] (d : List (α × β)) (k : α) :
    pyPopD d k = none ↔ pyGet d k = none := by
  induction d with
  | nil => simp [pyPopD, pyGet]
  | cons p rest ih =>
    rcases p with ⟨k', v'⟩
    by_cases hk : k' = k
    · simp [pyPopD, pyGet, hk]
    · simp only [pyPopD, pyGet, if_neg hk]
      rw [← ih]
      cases pyPopD rest k with
      | none => simp
      | some vr => simp

/-- On a dict with unique keys, a successful `pop` leaves no entry for the
popped key. -/
theorem pyPopD_get_none {α β : Type} [DecidableEq α] (d : List (α × β)) (k : α)
    (v : β) (rest : List (α × β)) (hnd : (d.map Prod.fst).Nodup)
    (h : pyPopD d k = some (v, rest)) : pyGet rest k = none := by
  induction d generalizing rest with
  | nil => simp [pyPopD] at h
  | cons p tail ih =>
    rcases p with ⟨k', v'⟩
    simp only [List.map_cons, List.nodup_cons] at hnd
    by_cases hk : k' = k
    · simp only [pyPopD, if_pos hk, Option.some.injEq, Prod.mk.injEq] at h
      rcases h with ⟨hv, hrest⟩
      subst hrest
      exact pyGet_eq_none_of_not_mem tail k (hk ▸ hnd.1)
    · simp only [pyPopD, if_neg hk] at h
      cases hp : pyPopD tail k with
      | none => rw [hp] at h; simp at h
      | some vr =>
        rw [hp] at h
        rcases vr with ⟨v0, rest0⟩
        simp only [Option.some.injEq, Prod.mk.injEq] at h
        rcases h with ⟨hv, hrest⟩
        subst hrest
        simp only [pyGet, if_neg hk]
        exact ih rest0 hnd.2 (hv ▸ hp)

/-- Claim C10: an accepted `ResourceOffersMessage` (connected, not aborted,
sent by the current master) records exactly the `zip(offers, pids)` pairs —
the common-length prefix, surplus offers or pids silently ignored — in the
offer table, while the `resource_offers` callback receives the full
`message.offers` list. -/
theorem resource_offers_zip_prefix_full_callback :
    ∀ (s : ProcState) (m : PID) (offers : List Offer) (pids : List String),
      s.connected = true → s.aborted = false → s.master = some m →
      (SchedulerProcess.handle_message s m (InMsg.resourceOffers offers pids)).err =
        none ∧
      (SchedulerProcess.handle_message s m
          (InMsg.resourceOffers offers pids)).state.saved_offers =
        (offers.zip pids).foldl SchedulerProcess.record_offer s.saved_offers ∧
      (offers.zip pids).length = min offers.length pids.length ∧
      (SchedulerProcess.handle_message s m (InMsg.resourceOffers offers pids)).outputs =
        [Output.callback (Callback.resource_offers offers)] := by
  intro s m offers pids hc ha hm
  simp [SchedulerProcess.handle_message, SchedulerProcess.ignore_if_disconnected,
        SchedulerProcess.ignore_if_aborted, SchedulerProcess.resource_offers,
        SchedulerProcess.valid_origin, hc, ha, hm]

/-- Witness for C10: two offers, one pid — only the first pair is recorded,
the callback still carries both offers. -/
theorem resource_offers_zip_prefix_witness :
    (SchedulerProcess.handle_message connectedEmptyState masterPID
      (InMsg.resourceOffers [off1, off2] ["slave@10.0.0.2:5051"])).err = none ∧
    (SchedulerProcess.handle_message connectedEmptyState masterPID
        (InMsg.resourceOffers [off1, off2] ["slave@10.0.0.2:5051"])).state.saved_offers =
      ([off1, off2].zip ["slave@10.0.0.2:5051"]).foldl SchedulerProcess.record_offer
        connectedEmptyState.saved_offers ∧
    ([off1, off2].zip ["slave@10.0.0.2:5051"]).length =
      min [off1, off2].length ["slave@10.0.0.2:5051"].length ∧
    (SchedulerProcess.handle_message connectedEmptyState masterPID
        (InMsg.resourceOffers [off1, off2] ["slave@10.0.0.2:5051"])).outputs =
      [Output.callback (Callback.resource_offers [off1, off2])] :=
  resource_offers_zip_prefix_full_callback connectedEmptyState masterPID [off1, off2]
    ["slave@10.0.0.2:5051"] rfl rfl rfl

/-- Claim C8 counterexample: a `LostSlave` for a slave id with no entry in
the slave cache, received from the current master while connected and not
aborted, does not complete normally: `saved_slaves.pop(...)` raises
`KeyError` and the `slave_lost` callback never runs. -/
theorem lost_slave_unknown_slave_keyerror :
    (SchedulerProcess.handle_message connectedEmptyState masterPID
      (InMsg.lostSlave ⟨"s-1"⟩)).err = some PyError.keyError ∧
    (SchedulerProcess.handle_message connectedEmptyState masterPID
      (InMsg.lostSlave ⟨"s-1"⟩)).outputs = [] :=
  ⟨rfl, rfl⟩

/-- Claim C8 amended: for a `LostSlave` received from the current master
while connected and not aborted, when the named slave id has an entry in the
slave cache the handler completes normally — afterwards the cache contains
no entry for that slave and the `slave_lost` callback is invoked; when it
has no entry, the bare `pop` raises `KeyError` and no callback is
invoked. -/
theorem lost_slave_amended :
    ∀ (s : ProcState) (m : PID) (sid : SlaveID),
      s.connected = true → s.aborted = false → s.master = some m →
      (s.saved_slaves.map Prod.fst).Nodup →
      (∀ p : PID, pyGet s.saved_slaves (PyKey.str sid.value) = some p →
        (SchedulerProcess.handle_message s m (InMsg.lostSlave sid)).err = none ∧
        pyGet (SchedulerProcess.handle_message s m
          (InMsg.lostSlave sid)).state.saved_slaves (PyKey.str sid.value) = none ∧
        (SchedulerProcess.handle_message s m (InMsg.lostSlave sid)).outputs =
          [Output.callback (Callback.slave_lost sid)]) ∧
      (pyGet s.saved_slaves (PyKey.str sid.value) = none →
        (SchedulerProcess.handle_message s m (InMsg.lostSlave sid)).err =
          some PyError.keyError ∧
        (SchedulerProcess.handle_message s m (InMsg.lostSlave sid)).outputs = []) := by
  intro s m sid hc ha hm hnd
  constructor
  · intro p hp
    have hpop : pyPopD s.saved_slaves (PyKey.str sid.value) ≠ none := by
      intro hn
      rw [pyPopD_eq_none_iff, hp] at hn
      exact Option.noConfusion hn
    cases hval : pyPopD s.saved_slaves (PyKey.str sid.value) with
    | none => exact absurd hval hpop
    | some vr =>
      rcases vr with ⟨v, rest⟩
      have hrest : pyGet rest (PyKey.str sid.value) = none :=
        pyPopD_get_none s.saved_slaves (PyKey.str sid.value) v rest hnd hval
      simp [SchedulerProcess.handle_message, SchedulerProcess.ignore_if_disconnected,
            SchedulerProcess.ignore_if_aborted, SchedulerProcess.lost_slave,
            SchedulerProcess.valid_origin, hc, ha, hm, hval, hrest]
  · intro hp
    have hpop : pyPopD s.saved_slaves (PyKey.str sid.value) = none := by
      rw [pyPopD_eq_none_iff]; exact hp
    simp [SchedulerProcess.handle_message, SchedulerProcess.ignore_if_disconnected,
          SchedulerProcess.ignore_if_aborted, SchedulerProcess.lost_slave,
          SchedulerProcess.valid_origin, hc, ha, hm, hpop]

/-- Witness for the amended C8 at a state whose cache holds slave "s-1". -/
theorem lost_slave_amended_witness :
    (SchedulerProcess.handle_message cachedSlaveState masterPID
      (InMsg.lostSlave ⟨"s-1"⟩)).err = none ∧
    pyGet (SchedulerProcess.handle_message cachedSlaveState masterPID
      (InMsg.lostSlave ⟨"s-1"⟩)).state.saved_slaves (PyKey.str "s-1") = none ∧
    (SchedulerProcess.handle_message cachedSlaveState masterPID
      (InMsg.lostSlave ⟨"s-1"⟩)).outputs =
      [Output.callback (Callback.slave_lost ⟨"s-1"⟩)] :=
  (lost_slave_amended cachedSlaveState masterPID ⟨"s-1"⟩ rfl rfl rfl
    (by decide)).1 slavePID rfl

/-- The promotion loop body touches only the slave cache and warning list. -/
theorem promote_task_aborted (oid : OfferID) (acc : ProcState × List Output)
    (task : TaskInfo) :
    (SchedulerProcess.promote_task oid acc task).1.aborted = acc.1.aborted := by
  rcases acc with ⟨s, ws⟩
  cases hg : pyGet s.saved_offers oid.value with
  | none => simp [SchedulerProcess.promote_task, hg]
  | some inner =>
    cases hi : pyGet inner task.slave_id.value with
    | none => simp [SchedulerProcess.promote_task, hg, hi]
    | some p => simp [SchedulerProcess.promote_task, hg, hi]

theorem foldl_promote_aborted (oid : OfferID) (tasks : List TaskInfo) :
    ∀ acc : ProcState × List Output,
      (tasks.foldl (SchedulerProcess.promote_task oid) acc).1.aborted = acc.1.aborted := by
  induction tasks with
  | nil => intro acc; rfl
  | cons t ts ih =>
    intro acc
    rw [List.foldl_cons, ih, promote_task_aborted]

/-- The launch offer loop never touches the `aborted` flag, whether or not
it dies in the bare `pop`. -/
theorem launch_offer_loop_aborted (oids : List OfferID) (tasks : List TaskInfo) :
    ∀ s : ProcState,
      (SchedulerProcess.launch_offer_loop oids tasks s).state.aborted = s.aborted := by
  induction oids with
  | nil => intro s; rfl
  | cons o os ih =>
    intro s
    simp only [SchedulerProcess.launch_offer_loop]
    cases hp : pyPopD (tasks.foldl (SchedulerProcess.promote_task o) (s, [])).1.saved_offers
        o.value with
    | none =>
      simp only [foldl_promote_aborted]
    | some vr =>
      rcases vr with ⟨v, remaining⟩
      simp only [ih, foldl_promote_aborted]

/-- The disconnected branch of `launch_tasks` dies in `_local_lost` (or does
nothing for an empty task list) without changing the state. -/
theorem local_lost_all_state (tasks : List TaskInfo) (reason : String) (s : ProcState) :
    (SchedulerProcess.local_lost_all tasks reason s).state = s := by
  cases tasks with
  | nil => rfl
  | cons t ts => rfl

/-- `launch_tasks` never touches the `aborted` flag. -/
theorem launch_tasks_aborted (oids : List OfferID) (tasks : List TaskInfo)
    (filters : Option Filters) (s : ProcState) :
    (SchedulerProcess.launch_tasks oids tasks filters s).state.aborted = s.aborted := by
  simp only [SchedulerProcess.launch_tasks]
  by_cases hc : s.connected
  · simp only [hc, Bool.not_true, Bool.false_eq_true, if_false]
    cases hs : SchedulerProcess.sanity_check_tasks s tasks with
    | error e => rfl
    | ok tasks' =>
      cases herr : (SchedulerProcess.launch_offer_loop oids tasks' s).err with
      | none => simp only [herr, launch_offer_loop_aborted]
      | some e => simp only [herr, launch_offer_loop_aborted]
  · simp only [hc, Bool.not_false, if_true, local_lost_all_state]

/-- With `aborted` set, every inbound protobuf message is dropped by the
decorator stack: the state is unchanged and the only output is a log
line. -/
theorem handle_message_aborted_drop (s : ProcState) (p : PID) (m : InMsg)
    (h : s.aborted = true) :
    (SchedulerProcess.handle_message s p m).state = s ∧
    ∀ o ∈ (SchedulerProcess.handle_message s p m).outputs,
      o.isCallback = false ∧ o.isSend = false := by
  cases m <;> by_cases hc : s.connected <;>
    simp [SchedulerProcess.handle_message, SchedulerProcess.ignore_if_disconnected,
          SchedulerProcess.ignore_if_aborted, h, hc, Output.isCallback, Output.isSend]

/-- With `aborted` set, no command of the scheduler process clears it. -/
theorem handle_command_aborted_monotone (s : ProcState) (c : Command)
    (h : s.aborted = true) :
    (SchedulerProcess.handle_command s c).state.aborted = true := by
  cases c with
  | launch_tasks oids tasks filters =>
    simp only [SchedulerProcess.handle_command]
    rw [launch_tasks_aborted]
    exact h
  | stop failover =>
    simp [SchedulerProcess.handle_command, SchedulerProcess.ignore_if_aborted, h]
  | abort =>
    simp [SchedulerProcess.handle_command, SchedulerProcess.ignore_if_aborted, h]
  | detected res =>
    simp [SchedulerProcess.handle_command, SchedulerProcess.ignore_if_aborted, h]
  | detect =>
    simpa [SchedulerProcess.handle_command, SchedulerProcess.detect] using h
  | _do_registration b =>
    by_cases hc : s.connected ∨ s.master = none <;>
      simp [SchedulerProcess.handle_command, SchedulerProcess._do_registration, hc, h]
  | kill_task tid =>
    by_cases hc : s.connected <;> cases hmm : s.master <;>
      simp [SchedulerProcess.handle_command, SchedulerProcess.ignore_if_disconnected,
            SchedulerProcess.kill_task, hc, hmm, h]
  | request_resources reqs =>
    by_cases hc : s.connected <;> cases hmm : s.master <;>
      simp [SchedulerProcess.handle_command, SchedulerProcess.ignore_if_disconnected,
            SchedulerProcess.request_resources, hc, hmm, h]
  | revive_offers =>
    by_cases hc : s.connected <;> cases hmm : s.master <;>
      simp [SchedulerProcess.handle_command, SchedulerProcess.ignore_if_disconnected,
            SchedulerProcess.revive_offers, hc, hmm, h]
  | reconcile_tasks sts =>
    by_cases hc : s.connected <;> cases hmm : s.master <;>
      simp [SchedulerProcess.handle_command, SchedulerProcess.ignore_if_disconnected,
            SchedulerProcess.reconcile_tasks, hc, hmm, h]
  | send_framework_message eid sid data =>
    by_cases hc : s.connected <;>
      simp [SchedulerProcess.handle_command, SchedulerProcess.ignore_if_disconnected,
            SchedulerProcess.send_framework_message, hc, h]

/-- With the process `aborted` mirror set, no driver method clears it
(`driver.abort` is the only writer and it sets the flag). -/
theorem driverStep_proc_aborted (d : DriverState) (op : DriverOp)
    (h : d.proc_aborted = true) : (driverStep d op).proc_aborted = true := by
  cases op <;>
    simp [driverStep, PesosSchedulerDriver.start, PesosSchedulerDriver.stop,
          PesosSchedulerDriver.abort, PesosSchedulerDriver.join,
          PesosSchedulerDriver.requestResources, PesosSchedulerDriver.launchTasks,
          PesosSchedulerDriver.killTask, PesosSchedulerDriver.declineOffer,
          PesosSchedulerDriver.reviveOffers,
          PesosSchedulerDriver.sendFrameworkMessage,
          PesosSchedulerDriver.reconcileTasks,
          PesosSchedulerDriver.dispatch_command,
          apply_ite (@Prod.snd (Option DriverStatus) DriverState),
          apply_ite (@Prod.snd DriverStatus DriverState),
          apply_ite DriverState.proc_aborted, h]

/-- Claim C7: the `aborted` flag is monotonic — no scheduler-process event
(inbound message or command) and no driver method ever clears it — and in
every state with `aborted` set, every inbound protocol message is dropped
with no user callback and no outbound send (in particular no status-update
acknowledgement). -/
theorem aborted_monotonic_and_inbound_dropped :
    (∀ (s : ProcState) (e : Event), s.aborted = true →
      (step s e).state.aborted = true ∧
      (∀ (p : PID) (m : InMsg), e = Event.msg p m →
        ∀ o ∈ (step s e).outputs, o.isCallback = false ∧ o.isSend = false)) ∧
    (∀ (d : DriverState) (op : DriverOp), d.proc_aborted = true →
      (driverStep d op).proc_aborted = true) := by
  refine ⟨?_, driverStep_proc_aborted⟩
  intro s e h
  cases e with
  | msg p m =>
    have hd := handle_message_aborted_drop s p m h
    refine ⟨?_, ?_⟩
    · simp only [step, hd.1, h]
    · intro p2 m2 he o ho
      cases he
      exact hd.2 o ho
  | cmd c =>
    refine ⟨handle_command_aborted_monotone s c h, ?_⟩
    intro p2 m2 he
    cases he

/-- Witness for C7: at an aborted state, a `ResourceOffers` from the master
leaves the flag set and produces no callback or send, and a driver method
leaves the mirror flag set. -/
theorem aborted_monotonic_witness :
    (step abortedState
      (Event.msg masterPID (InMsg.resourceOffers [off1] ["slave@10.0.0.2:5051"]))).state.aborted =
        true ∧
    (∀ o ∈ (step abortedState
        (Event.msg masterPID (InMsg.resourceOffers [off1] ["slave@10.0.0.2:5051"]))).outputs,
      o.isCallback = false ∧ o.isSend = false) ∧
    (driverStep driverAbortedState DriverOp.reviveOffers).proc_aborted = true :=
  ⟨(aborted_monotonic_and_inbound_dropped.1 abortedState
      (Event.msg masterPID (InMsg.resourceOffers [off1] ["slave@10.0.0.2:5051"])) rfl).1,
   (aborted_monotonic_and_inbound_dropped.1 abortedState
      (Event.msg masterPID (InMsg.resourceOffers [off1] ["slave@10.0.0.2:5051"])) rfl).2
     masterPID (InMsg.resourceOffers [off1] ["slave@10.0.0.2:5051"]) rfl,
   aborted_monotonic_and_inbound_dropped.2 driverAbortedState DriverOp.reviveOffers rfl⟩

end Pesos
